import Mathlib

set_option linter.unusedVariables false

/-! Shallow embedding of the BTHome BME680 beacon firmware and of the CTS
time companion application.

The repository contains three variants of the encode-and-advertise pipeline:

* the three-payload work-queue design (first half of sensor_handler.c),
  embedded below as sensor_work_handler_v1;
* the combined-payload work-queue design with a plausibility check
  (second half of sensor_handler.c), embedded as sensor_work_handler_v2;
* the simple two-payload infinite loop (main of the template application),
  embedded as simple_loop_body;

plus the CTS time read/write callbacks (app/time/src/main.c), embedded as
cts_time_write and cts_time_read.

C integer conventions used throughout the embedding:

* casts to fixed-width machine integers wrap modulo the width
  (int16_t, uint16_t, int32_t, uint8_t below);
* C division and remainder truncate toward zero, embedded as
  Int.tdiv and Int.tmod;
* the C expression x & 0xFF on a two's complement value is x % 256 with
  the mathematical (nonnegative) remainder, embedded as loByte;
* an arithmetic right shift x >> n is division by 2 ^ n rounding toward
  negative infinity, which for the positive divisors used here is the
  Lean Int division; (x >> 8) & 0xFF and (x >> 16) & 0xFF are embedded
  as hiByte and byte2.

Payload buffers are embedded as List Int of bytes; the C assignments
service_data[IDX] = v become List.set at the same indices, in source
order. -/

/-- C cast to int16_t: wrap into the interval from -32768 up to 32767. -/
def int16_t (x : Int) : Int := (x + 32768) % 65536 - 32768

/-- C cast to uint16_t: wrap into the interval from 0 up to 65535. -/
def uint16_t (x : Int) : Int := x % 65536

/-- C cast to int32_t: wrap into the interval from -2147483648 up to 2147483647. -/
def int32_t (x : Int) : Int := (x + 2147483648) % 4294967296 - 2147483648

/-- C cast to uint8_t: wrap into the interval from 0 up to 255. -/
def uint8_t (x : Int) : Int := x % 256

/-- C expression x & 0xFF on a two's complement machine integer. -/
def loByte (x : Int) : Int := x % 256

/-- C expression (x >> 8) & 0xFF with arithmetic shift. -/
def hiByte (x : Int) : Int := (x / 256) % 256

/-- C expression (x >> 16) & 0xFF with arithmetic shift. -/
def byte2 (x : Int) : Int := (x / 65536) % 256

/-- One Zephyr struct sensor_value: integer part val1 and fractional part
val2 in millionths. -/
structure SensorValue where
  val1 : Int
  val2 : Int
deriving DecidableEq, Repr

/-- One snapshot of the six channels read by the work handlers of
sensor_handler.c (temperature, pressure, humidity, IAQ, CO2, VOC). -/
structure Sample where
  temp : SensorValue
  press : SensorValue
  humidity : SensorValue
  iaq : SensorValue
  co2 : SensorValue
  voc : SensorValue
deriving DecidableEq, Repr

/-- Channels read by the simple-loop design (temperature, pressure,
humidity, gas resistance). -/
structure SimpleSample where
  temp : SensorValue
  press : SensorValue
  humidity : SensorValue
  gas_res : SensorValue
deriving DecidableEq, Repr

/-- int16_t temp_scaled = temp.val1 * 100 + temp.val2 / 10000; -/
def temp_scaled (temp : SensorValue) : Int :=
  int16_t (temp.val1 * 100 + Int.tdiv temp.val2 10000)

/-- int16_t humidity_scaled = humidity.val1 * 100 + humidity.val2 / 10000; -/
def humidity_scaled (humidity : SensorValue) : Int :=
  int16_t (humidity.val1 * 100 + Int.tdiv humidity.val2 10000)

/-- int32_t pressure_scaled = (press.val1 / 100) * 100
      + (press.val1 % 100 + press.val2 / 1000000) / 10;
with C truncating division and remainder, as in both work-queue designs. -/
def pressure_scaled (press : SensorValue) : Int :=
  int32_t (Int.tdiv press.val1 100 * 100 +
    Int.tdiv (Int.tmod press.val1 100 + Int.tdiv press.val2 1000000) 10)

/-- uint16_t voc_scaled = voc.val1 * 100 + voc.val2 / 10000; -/
def voc_scaled (voc : SensorValue) : Int :=
  uint16_t (voc.val1 * 100 + Int.tdiv voc.val2 10000)

/-- uint16_t co2_scaled = co2.val1 + (co2.val2 / 1000000); -/
def co2_scaled (co2 : SensorValue) : Int :=
  uint16_t (co2.val1 + Int.tdiv co2.val2 1000000)

/-- int32_t pressure_scaled = press.val1 * 1000 + press.val2 / 10000;
the pressure conversion of the simple two-payload loop design. -/
def pressure_scaled_simple (press : SensorValue) : Int :=
  int32_t (press.val1 * 1000 + Int.tdiv press.val2 10000)

/-- Byte indices of the three-payload design and of the simple-loop
design (identical defines in both sources). -/
def IDX_TEMPL : Nat := 4

def IDX_TEMPH : Nat := 5

def IDX_HUMIDL : Nat := 7

def IDX_HUMIDH : Nat := 8

def IDX_PRESS_LOW : Nat := 4

def IDX_PRESS_MID : Nat := 5

def IDX_PRESS_HIGH : Nat := 6

def IDX_VOC_LOW : Nat := 4

def IDX_VOC_HIGH : Nat := 5

def IDX_CO2_HIGH : Nat := 7

def IDX_CO2_LOW : Nat := 8

/-- Byte indices of the combined-payload design. -/
def IDX_TEMP_L : Nat := 4

def IDX_TEMP_H : Nat := 5

def IDX_HUMID_L : Nat := 7

def IDX_HUMID_H : Nat := 8

def IDX_PRESS_L : Nat := 10

def IDX_PRESS_M : Nat := 11

def IDX_PRESS_H : Nat := 12

def IDX_VOC_L : Nat := 14

def IDX_VOC_H : Nat := 15

def IDX_CO2_L : Nat := 17

def IDX_CO2_H : Nat := 18

/-- Initial temperature and humidity payload of the three-payload design;
BT_UUID_16_ENCODE(0xFCD2) expands to the two bytes 0xD2, 0xFC. -/
def service_data_temp_hum : List Int :=
  [0xD2, 0xFC, 0x40, 0x02, 0x00, 0x00, 0x03, 0x00, 0x00]

/-- Initial pressure payload of the three-payload design. -/
def service_data_press : List Int :=
  [0xD2, 0xFC, 0x40, 0x04, 0x00, 0x00, 0x00]

/-- Initial VOC and CO2 payload of the three-payload design. -/
def service_data_voc_co2 : List Int :=
  [0xD2, 0xFC, 0x40, 0x13, 0x00, 0x00, 0x12, 0x00, 0x00]

/-- Initial combined payload of the combined-payload design. -/
def service_data_combined : List Int :=
  [0xD2, 0xFC, 0x40, 0x02, 0x00, 0x00, 0x03, 0x00, 0x00, 0x04, 0x00, 0x00, 0x00,
   0x13, 0x00, 0x00, 0x12, 0x00, 0x00]

/-- Initial temperature and humidity payload of the simple-loop design
(with its nonzero placeholder bytes). -/
def service_data_temp_hum_simple : List Int :=
  [0xD2, 0xFC, 0x40, 0x02, 0xC4, 0x00, 0x03, 0xBF, 0x13]

/-- Initial pressure payload of the simple-loop design. -/
def service_data_press_gas : List Int :=
  [0xD2, 0xFC, 0x40, 0x04, 0x13, 0x8A, 0x01]

/-- Temperature and humidity assignment block, identical in the
three-payload work handler and in the simple-loop design: writes the hi
and lo bytes of temp_scaled and of humidity_scaled, in source order. -/
def update_temp_hum (temp humidity : SensorValue) (buf : List Int) : List Int :=
  ((((buf.set IDX_TEMPH (hiByte (temp_scaled temp))).set IDX_TEMPL
      (loByte (temp_scaled temp))).set IDX_HUMIDH
      (hiByte (humidity_scaled humidity))).set IDX_HUMIDL
      (loByte (humidity_scaled humidity)))

/-- Pressure assignment block of the three-payload work handler: lo, mid,
hi bytes of pressure_scaled. -/
def update_press (press : SensorValue) (buf : List Int) : List Int :=
  (((buf.set IDX_PRESS_LOW (loByte (pressure_scaled press))).set IDX_PRESS_MID
      (hiByte (pressure_scaled press))).set IDX_PRESS_HIGH
      (byte2 (pressure_scaled press)))

/-- Pressure assignment block of the simple-loop design: lo, mid, hi
bytes of pressure_scaled_simple, written at the same indices. -/
def update_press_simple (press : SensorValue) (buf : List Int) : List Int :=
  (((buf.set IDX_PRESS_LOW (loByte (pressure_scaled_simple press))).set IDX_PRESS_MID
      (hiByte (pressure_scaled_simple press))).set IDX_PRESS_HIGH
      (byte2 (pressure_scaled_simple press)))

/-- VOC and CO2 assignment block of the three-payload work handler.
Note the source writes the CO2 high byte at index 7 and the CO2 low byte
at index 8 (IDX_CO2_HIGH is 7 and IDX_CO2_LOW is 8). -/
def update_voc_co2 (voc co2 : SensorValue) (buf : List Int) : List Int :=
  ((((buf.set IDX_VOC_LOW (loByte (voc_scaled voc))).set IDX_VOC_HIGH
      (hiByte (voc_scaled voc))).set IDX_CO2_HIGH
      (hiByte (co2_scaled co2))).set IDX_CO2_LOW
      (loByte (co2_scaled co2)))

/-- All eleven value-byte assignments of the combined-payload work
handler, in source order. -/
def update_combined (s : Sample) (buf : List Int) : List Int :=
  (((((((((((buf.set IDX_TEMP_H (hiByte (temp_scaled s.temp))).set IDX_TEMP_L
      (loByte (temp_scaled s.temp))).set IDX_HUMID_H
      (hiByte (humidity_scaled s.humidity))).set IDX_HUMID_L
      (loByte (humidity_scaled s.humidity))).set IDX_PRESS_L
      (loByte (pressure_scaled s.press))).set IDX_PRESS_M
      (hiByte (pressure_scaled s.press))).set IDX_PRESS_H
      (byte2 (pressure_scaled s.press))).set IDX_VOC_L
      (loByte (voc_scaled s.voc))).set IDX_VOC_H
      (hiByte (voc_scaled s.voc))).set IDX_CO2_H
      (hiByte (co2_scaled s.co2))).set IDX_CO2_L
      (loByte (co2_scaled s.co2)))

/-- Payload buffers of the three-payload design. -/
structure V1State where
  temp_hum : List Int
  press : List Int
  voc_co2 : List Int
deriving DecidableEq, Repr

/-- Observable outcome of one run of the three-payload work handler:
the buffers after the run and the k_work_schedule delay (SENSOR_WORK_DELAY
is K_SECONDS(3)). -/
structure V1Result where
  state : V1State
  delaySeconds : Int
deriving DecidableEq, Repr

/-- Work handler of the three-payload design. In the source the
fetch-failure branch only logs and calls k_work_schedule; there is no
early return, so control falls through and the channel reads, the
encoding assignments and the three advertising updates all still run.
The fetch error flag and the three bt_le_adv_update_data error flags
u1, u2, u3 therefore do not influence the buffers; the handler ends with
k_work_schedule(SENSOR_WORK_DELAY) on every path. -/
def sensor_work_handler_v1 (fetchErr u1 u2 u3 : Bool) (s : Sample)
    (st : V1State) : V1Result :=
  { state :=
      { temp_hum := update_temp_hum s.temp s.humidity st.temp_hum
        press := update_press s.press st.press
        voc_co2 := update_voc_co2 s.voc s.co2 st.voc_co2 }
    delaySeconds := 3 }

/-- Observable outcome of one run of the combined-payload work handler:
the buffer after the run, whether bt_le_ext_adv_set_data was reached and
succeeded, and the k_work_schedule delay. -/
structure V2Result where
  buf : List Int
  published : Bool
  delaySeconds : Int
deriving DecidableEq, Repr

/-- Work handler of the combined-payload design: a failed fetch and a
failed plausibility check (iaq.val1 == 0 or negative CO2 or VOC integer
part) both jump to the reschedule label, leaving the buffer untouched;
otherwise the eleven value bytes are rewritten and the advertising data
updated (updErr tells whether that update call failed). Every path ends
at the reschedule label with delay K_SECONDS(3). -/
def sensor_work_handler_v2 (fetchErr updErr : Bool) (s : Sample)
    (buf : List Int) : V2Result :=
  if fetchErr then { buf := buf, published := false, delaySeconds := 3 }
  else if s.iaq.val1 = 0 ∨ s.co2.val1 < 0 ∨ s.voc.val1 < 0 then
    { buf := buf, published := false, delaySeconds := 3 }
  else { buf := update_combined s buf, published := !updErr, delaySeconds := 3 }

/-- Observable outcome of one iteration of the simple-loop design. -/
structure SimpleResult where
  temp_hum : List Int
  press_gas : List Int
  delaySeconds : Int
deriving DecidableEq, Repr

/-- Body of the infinite for loop of the simple two-payload design: the
sensor_sample_fetch return value is ignored, both payloads are always
re-encoded, the two bt_le_adv_update_data error flags u1, u2 only print,
and the iteration always ends with k_sleep(K_MINUTES(5)), that is 300
seconds. -/
def simple_loop_body (fetchRet : Int) (u1 u2 : Bool) (s : SimpleSample)
    (th pg : List Int) : SimpleResult :=
  { temp_hum := update_temp_hum s.temp s.humidity th
    press_gas := update_press_simple s.press pg
    delaySeconds := 300 }

/-- Subset of the Zephyr struct rtc_time read or written by the CTS
application (the remaining fields are untouched by it). -/
structure rtc_time where
  tm_sec : Int
  tm_min : Int
  tm_hour : Int
  tm_mday : Int
  tm_mon : Int
  tm_year : Int
  tm_wday : Int
deriving DecidableEq, Repr

/-- Wire structure bt_cts_time_format: year is a uint16_t field, the
remaining fields are uint8_t. -/
structure bt_cts_time_format where
  year : Int
  mon : Int
  mday : Int
  hours : Int
  min : Int
  sec : Int
  wday : Int
deriving DecidableEq, Repr

/-- cts_time_write: the rtc_time handed to rtc_set_time. Fields absent
from the designated initializer (tm_wday among them) are zero. -/
def cts_time_write (cts_time : bt_cts_time_format) : rtc_time :=
  { tm_sec := cts_time.sec
    tm_min := cts_time.min
    tm_hour := cts_time.hours
    tm_mday := cts_time.mday
    tm_mon := cts_time.mon - 1
    tm_year := cts_time.year - 1900
    tm_wday := 0 }

/-- cts_time_read applied to the rtc_time returned by a successful
rtc_get_time call; each assignment to a fixed-width wire field wraps.
The weekday field is computed as (tm.tm_wday + 7) % 7 + 1 with the C
remainder. -/
def cts_time_read (tm : rtc_time) : bt_cts_time_format :=
  { year := uint16_t (tm.tm_year + 1900)
    mon := uint8_t (tm.tm_mon + 1)
    mday := uint8_t tm.tm_mday
    hours := uint8_t tm.tm_hour
    min := uint8_t tm.tm_min
    sec := uint8_t tm.tm_sec
    wday := uint8_t (Int.tmod (tm.tm_wday + 7) 7 + 1) }

/-- Value-byte indices of the temperature and humidity payload. -/
def v1_temp_hum_value_idx : List Nat := [4, 5, 7, 8]

/-- Value-byte indices of the three-payload pressure payload. -/
def v1_press_value_idx : List Nat := [4, 5, 6]

/-- Value-byte indices of the VOC and CO2 payload. -/
def v1_voc_co2_value_idx : List Nat := [4, 5, 7, 8]

/-- Value-byte indices of the combined payload. -/
def v2_value_idx : List Nat := [4, 5, 7, 8, 10, 11, 12, 14, 15, 17, 18]

/-- Sample used as concrete counterexample input: the end-to-end vector
of the specification with IAQ 50. -/
def sample_iaq_50 : Sample :=
  ⟨⟨22, 500000⟩, ⟨1013, 250000⟩, ⟨55, 0⟩, ⟨50, 0⟩, ⟨450, 0⟩, ⟨10, 0⟩⟩

/-- The same sample with IAQ 100 instead of 50. -/
def sample_iaq_100 : Sample :=
  ⟨⟨22, 500000⟩, ⟨1013, 250000⟩, ⟨55, 0⟩, ⟨100, 0⟩, ⟨450, 0⟩, ⟨10, 0⟩⟩

/-- Wrapping to int16_t does not change the low byte. -/
theorem int16_t_loByte (x : Int) : loByte (int16_t x) = loByte x := by
  simp only [loByte, int16_t]; omega

/-- Wrapping to int16_t does not change the second byte. -/
theorem int16_t_hiByte (x : Int) : hiByte (int16_t x) = hiByte x := by
  simp only [hiByte, int16_t]; omega

/-- Wrapping to uint16_t does not change the low byte. -/
theorem uint16_t_loByte (x : Int) : loByte (uint16_t x) = loByte x := by
  simp only [loByte, uint16_t]; omega

/-- Wrapping to uint16_t does not change the second byte. -/
theorem uint16_t_hiByte (x : Int) : hiByte (uint16_t x) = hiByte x := by
  simp only [hiByte, uint16_t]; omega

/-- Wrapping to int32_t does not change the low byte. -/
theorem int32_t_loByte (x : Int) : loByte (int32_t x) = loByte x := by
  simp only [loByte, int32_t]; omega

/-- Wrapping to int32_t does not change the second byte. -/
theorem int32_t_hiByte (x : Int) : hiByte (int32_t x) = hiByte x := by
  simp only [hiByte, int32_t]; omega

/-- Wrapping to int32_t does not change the third byte. -/
theorem int32_t_byte2 (x : Int) : byte2 (int32_t x) = byte2 x := by
  simp only [byte2, int32_t]; omega

/-- The four bytes written by the temperature and humidity block. -/
theorem update_temp_hum_bytes (t h : SensorValue) (buf : List Int)
    (hb : buf.length = 9) :
    (update_temp_hum t h buf)[IDX_TEMPL]? = some (loByte (temp_scaled t)) ∧
    (update_temp_hum t h buf)[IDX_TEMPH]? = some (hiByte (temp_scaled t)) ∧
    (update_temp_hum t h buf)[IDX_HUMIDL]? = some (loByte (humidity_scaled h)) ∧
    (update_temp_hum t h buf)[IDX_HUMIDH]? = some (hiByte (humidity_scaled h)) := by
  simp [update_temp_hum, IDX_TEMPL, IDX_TEMPH, IDX_HUMIDL, IDX_HUMIDH,
    List.getElem?_set, List.length_set, hb]

/-- The three bytes written by the three-payload pressure block. -/
theorem update_press_bytes (p : SensorValue) (buf : List Int)
    (hb : buf.length = 7) :
    (update_press p buf)[IDX_PRESS_LOW]? = some (loByte (pressure_scaled p)) ∧
    (update_press p buf)[IDX_PRESS_MID]? = some (hiByte (pressure_scaled p)) ∧
    (update_press p buf)[IDX_PRESS_HIGH]? = some (byte2 (pressure_scaled p)) := by
  simp [update_press, IDX_PRESS_LOW, IDX_PRESS_MID, IDX_PRESS_HIGH,
    List.getElem?_set, List.length_set, hb]

/-- The three bytes written by the simple-loop pressure block. -/
theorem update_press_simple_bytes (p : SensorValue) (buf : List Int)
    (hb : buf.length = 7) :
    (update_press_simple p buf)[IDX_PRESS_LOW]? = some (loByte (pressure_scaled_simple p)) ∧
    (update_press_simple p buf)[IDX_PRESS_MID]? = some (hiByte (pressure_scaled_simple p)) ∧
    (update_press_simple p buf)[IDX_PRESS_HIGH]? = some (byte2 (pressure_scaled_simple p)) := by
  simp [update_press_simple, IDX_PRESS_LOW, IDX_PRESS_MID, IDX_PRESS_HIGH,
    List.getElem?_set, List.length_set, hb]

/-- The four bytes written by the VOC and CO2 block. -/
theorem update_voc_co2_bytes (v c : SensorValue) (buf : List Int)
    (hb : buf.length = 9) :
    (update_voc_co2 v c buf)[IDX_VOC_LOW]? = some (loByte (voc_scaled v)) ∧
    (update_voc_co2 v c buf)[IDX_VOC_HIGH]? = some (hiByte (voc_scaled v)) ∧
    (update_voc_co2 v c buf)[IDX_CO2_HIGH]? = some (hiByte (co2_scaled c)) ∧
    (update_voc_co2 v c buf)[IDX_CO2_LOW]? = some (loByte (co2_scaled c)) := by
  simp [update_voc_co2, IDX_VOC_LOW, IDX_VOC_HIGH, IDX_CO2_HIGH, IDX_CO2_LOW,
    List.getElem?_set, List.length_set, hb]

/-- The eleven bytes written by the combined block. -/
theorem update_combined_bytes (s : Sample) (buf : List Int)
    (hb : buf.length = 19) :
    (update_combined s buf)[IDX_TEMP_L]? = some (loByte (temp_scaled s.temp)) ∧
    (update_combined s buf)[IDX_TEMP_H]? = some (hiByte (temp_scaled s.temp)) ∧
    (update_combined s buf)[IDX_HUMID_L]? = some (loByte (humidity_scaled s.humidity)) ∧
    (update_combined s buf)[IDX_HUMID_H]? = some (hiByte (humidity_scaled s.humidity)) ∧
    (update_combined s buf)[IDX_PRESS_L]? = some (loByte (pressure_scaled s.press)) ∧
    (update_combined s buf)[IDX_PRESS_M]? = some (hiByte (pressure_scaled s.press)) ∧
    (update_combined s buf)[IDX_PRESS_H]? = some (byte2 (pressure_scaled s.press)) ∧
    (update_combined s buf)[IDX_VOC_L]? = some (loByte (voc_scaled s.voc)) ∧
    (update_combined s buf)[IDX_VOC_H]? = some (hiByte (voc_scaled s.voc)) ∧
    (update_combined s buf)[IDX_CO2_L]? = some (loByte (co2_scaled s.co2)) ∧
    (update_combined s buf)[IDX_CO2_H]? = some (hiByte (co2_scaled s.co2)) := by
  simp [update_combined, IDX_TEMP_L, IDX_TEMP_H, IDX_HUMID_L, IDX_HUMID_H,
    IDX_PRESS_L, IDX_PRESS_M, IDX_PRESS_H, IDX_VOC_L, IDX_VOC_H, IDX_CO2_L,
    IDX_CO2_H, List.getElem?_set, List.length_set, hb]

/-- Indices outside the value bytes of the temperature and humidity
payload are untouched, and the length is preserved. -/
theorem update_temp_hum_frame (t h : SensorValue) (buf : List Int) (j : Nat)
    (hj : j ∉ v1_temp_hum_value_idx) :
    (update_temp_hum t h buf)[j]? = buf[j]? ∧
    (update_temp_hum t h buf).length = buf.length := by
  simp only [v1_temp_hum_value_idx, List.mem_cons, List.not_mem_nil, or_false] at hj
  push_neg at hj
  obtain ⟨h4, h5, h7, h8⟩ := hj
  constructor
  · simp [update_temp_hum, IDX_TEMPL, IDX_TEMPH, IDX_HUMIDL, IDX_HUMIDH,
      List.getElem?_set, Ne.symm h4, Ne.symm h5, Ne.symm h7, Ne.symm h8]
  · simp [update_temp_hum]

/-- Indices outside the value bytes of the three-payload pressure payload
are untouched, and the length is preserved. -/
theorem update_press_frame (p : SensorValue) (buf : List Int) (j : Nat)
    (hj : j ∉ v1_press_value_idx) :
    (update_press p buf)[j]? = buf[j]? ∧
    (update_press p buf).length = buf.length := by
  simp only [v1_press_value_idx, List.mem_cons, List.not_mem_nil, or_false] at hj
  push_neg at hj
  obtain ⟨h4, h5, h6⟩ := hj
  constructor
  · simp [update_press, IDX_PRESS_LOW, IDX_PRESS_MID, IDX_PRESS_HIGH,
      List.getElem?_set, Ne.symm h4, Ne.symm h5, Ne.symm h6]
  · simp [update_press]

/-- Indices outside the value bytes of the VOC and CO2 payload are
untouched, and the length is preserved. -/
theorem update_voc_co2_frame (v c : SensorValue) (buf : List Int) (j : Nat)
    (hj : j ∉ v1_voc_co2_value_idx) :
    (update_voc_co2 v c buf)[j]? = buf[j]? ∧
    (update_voc_co2 v c buf).length = buf.length := by
  simp only [v1_voc_co2_value_idx, List.mem_cons, List.not_mem_nil, or_false] at hj
  push_neg at hj
  obtain ⟨h4, h5, h7, h8⟩ := hj
  constructor
  · simp [update_voc_co2, IDX_VOC_LOW, IDX_VOC_HIGH, IDX_CO2_HIGH, IDX_CO2_LOW,
      List.getElem?_set, Ne.symm h4, Ne.symm h5, Ne.symm h7, Ne.symm h8]
  · simp [update_voc_co2]

/-- Indices outside the value bytes of the combined payload are
untouched, and the length is preserved. -/
theorem update_combined_frame (s : Sample) (buf : List Int) (j : Nat)
    (hj : j ∉ v2_value_idx) :
    (update_combined s buf)[j]? = buf[j]? ∧
    (update_combined s buf).length = buf.length := by
  simp only [v2_value_idx, List.mem_cons, List.not_mem_nil, or_false] at hj
  push_neg at hj
  obtain ⟨h4, h5, h7, h8, h10, h11, h12, h14, h15, h17, h18⟩ := hj
  constructor
  · simp [update_combined, IDX_TEMP_L, IDX_TEMP_H, IDX_HUMID_L, IDX_HUMID_H,
      IDX_PRESS_L, IDX_PRESS_M, IDX_PRESS_H, IDX_VOC_L, IDX_VOC_H, IDX_CO2_L,
      IDX_CO2_H, List.getElem?_set, Ne.symm h4, Ne.symm h5, Ne.symm h7,
      Ne.symm h8, Ne.symm h10, Ne.symm h11, Ne.symm h12, Ne.symm h14,
      Ne.symm h15, Ne.symm h17, Ne.symm h18]
  · simp [update_combined]

/-- C1: for every reading (val1, val2) with 0 <= val2 < 1000000, the
temperature, humidity and VOC encoders of all three designs compute
scaled = val1 * 100 + val2 / 10000 with C truncating division and write
exactly two payload bytes, the byte at the lower index being
scaled & 0xFF and the byte at the higher index (scaled >> 8) & 0xFF
(temperature through an int16_t, humidity through an int16_t whose
emitted bytes coincide with the unsigned 16-bit encoding, VOC through a
uint16_t; the 16-bit wrap never changes the two emitted bytes). -/
theorem c1_two_byte_encoders (t h v c : SensorValue) (s : Sample)
    (ht1 : 0 ≤ t.val2) (ht2 : t.val2 < 1000000)
    (hh1 : 0 ≤ h.val2) (hh2 : h.val2 < 1000000)
    (hv1 : 0 ≤ v.val2) (hv2 : v.val2 < 1000000)
    (hst : s.temp = t) (hsh : s.humidity = h) (hsv : s.voc = v)
    (th vc cb : List Int)
    (hth : th.length = 9) (hvc : vc.length = 9) (hcb : cb.length = 19) :
    (update_temp_hum t h th)[IDX_TEMPL]? =
      some (loByte (t.val1 * 100 + Int.tdiv t.val2 10000)) ∧
    (update_temp_hum t h th)[IDX_TEMPH]? =
      some (hiByte (t.val1 * 100 + Int.tdiv t.val2 10000)) ∧
    (update_temp_hum t h th)[IDX_HUMIDL]? =
      some (loByte (h.val1 * 100 + Int.tdiv h.val2 10000)) ∧
    (update_temp_hum t h th)[IDX_HUMIDH]? =
      some (hiByte (h.val1 * 100 + Int.tdiv h.val2 10000)) ∧
    (update_voc_co2 v c vc)[IDX_VOC_LOW]? =
      some (loByte (v.val1 * 100 + Int.tdiv v.val2 10000)) ∧
    (update_voc_co2 v c vc)[IDX_VOC_HIGH]? =
      some (hiByte (v.val1 * 100 + Int.tdiv v.val2 10000)) ∧
    (update_combined s cb)[IDX_TEMP_L]? =
      some (loByte (t.val1 * 100 + Int.tdiv t.val2 10000)) ∧
    (update_combined s cb)[IDX_TEMP_H]? =
      some (hiByte (t.val1 * 100 + Int.tdiv t.val2 10000)) ∧
    (update_combined s cb)[IDX_HUMID_L]? =
      some (loByte (h.val1 * 100 + Int.tdiv h.val2 10000)) ∧
    (update_combined s cb)[IDX_HUMID_H]? =
      some (hiByte (h.val1 * 100 + Int.tdiv h.val2 10000)) ∧
    (update_combined s cb)[IDX_VOC_L]? =
      some (loByte (v.val1 * 100 + Int.tdiv v.val2 10000)) ∧
    (update_combined s cb)[IDX_VOC_H]? =
      some (hiByte (v.val1 * 100 + Int.tdiv v.val2 10000)) := by
  obtain ⟨e1, e2, e3, e4⟩ := update_temp_hum_bytes t h th hth
  obtain ⟨f1, f2, _, _⟩ := update_voc_co2_bytes v c vc hvc
  obtain ⟨g1, g2, g3, g4, _, _, _, g8, g9, _, _⟩ := update_combined_bytes s cb hcb
  rw [hst] at g1 g2
  rw [hsh] at g3 g4
  rw [hsv] at g8 g9
  simp only [temp_scaled, humidity_scaled, voc_scaled, int16_t_loByte, int16_t_hiByte, uint16_t_loByte, uint16_t_hiByte] at e1 e2 e3 e4 f1 f2 g1 g2 g3 g4 g8 g9
  exact ⟨e1, e2, e3, e4, f1, f2, g1, g2, g3, g4, g8, g9⟩

/-- C2 counterexample: the claim states that every pressure encoder of
the repository computes scaled = (i/100)*100 + ((i%100) + f/1000000)/10;
the pressure encoder of the simple two-payload loop design does not: at
the reading (1013, 250000) it writes low byte 33 (from its own scaled
value 1013025 = 1013*1000 + 250000/10000), while the claimed formula
gives scaled 1001 and low byte 233. -/
theorem c2_pressure_counterexample :
    (update_press_simple ⟨1013, 250000⟩ service_data_press_gas)[IDX_PRESS_LOW]? ≠
      some (loByte (Int.tdiv 1013 100 * 100 +
        Int.tdiv (Int.tmod 1013 100 + Int.tdiv 250000 1000000) 10)) ∧
    pressure_scaled_simple ⟨1013, 250000⟩ = 1013025 ∧
    Int.tdiv 1013 100 * 100 +
      Int.tdiv (Int.tmod 1013 100 + Int.tdiv 250000 1000000) 10 = 1001 := by
  refine ⟨?_, by decide, by decide⟩
  decide

/-- C2 amended: in the two work-queue designs the pressure encoder
computes scaled = (i/100)*100 + ((i%100) + f/1000000)/10 with exactly
this order of C truncating operations and writes it as three payload
bytes in little-endian order (low byte scaled & 0xFF, mid byte
(scaled >> 8) & 0xFF, high byte (scaled >> 16) & 0xFF); the simple
two-payload loop design instead computes scaled = i*1000 + f/10000 and
packs it into the same three little-endian byte positions. -/
theorem c2_pressure_encoding_amended (p : SensorValue) (s : Sample)
    (hsp : s.press = p) (pb cb pg : List Int)
    (hpb : pb.length = 7) (hcb : cb.length = 19) (hpg : pg.length = 7) :
    (update_press p pb)[IDX_PRESS_LOW]? =
      some (loByte (Int.tdiv p.val1 100 * 100 +
        Int.tdiv (Int.tmod p.val1 100 + Int.tdiv p.val2 1000000) 10)) ∧
    (update_press p pb)[IDX_PRESS_MID]? =
      some (hiByte (Int.tdiv p.val1 100 * 100 +
        Int.tdiv (Int.tmod p.val1 100 + Int.tdiv p.val2 1000000) 10)) ∧
    (update_press p pb)[IDX_PRESS_HIGH]? =
      some (byte2 (Int.tdiv p.val1 100 * 100 +
        Int.tdiv (Int.tmod p.val1 100 + Int.tdiv p.val2 1000000) 10)) ∧
    (update_combined s cb)[IDX_PRESS_L]? =
      some (loByte (Int.tdiv p.val1 100 * 100 +
        Int.tdiv (Int.tmod p.val1 100 + Int.tdiv p.val2 1000000) 10)) ∧
    (update_combined s cb)[IDX_PRESS_M]? =
      some (hiByte (Int.tdiv p.val1 100 * 100 +
        Int.tdiv (Int.tmod p.val1 100 + Int.tdiv p.val2 1000000) 10)) ∧
    (update_combined s cb)[IDX_PRESS_H]? =
      some (byte2 (Int.tdiv p.val1 100 * 100 +
        Int.tdiv (Int.tmod p.val1 100 + Int.tdiv p.val2 1000000) 10)) ∧
    (update_press_simple p pg)[IDX_PRESS_LOW]? =
      some (loByte (p.val1 * 1000 + Int.tdiv p.val2 10000)) ∧
    (update_press_simple p pg)[IDX_PRESS_MID]? =
      some (hiByte (p.val1 * 1000 + Int.tdiv p.val2 10000)) ∧
    (update_press_simple p pg)[IDX_PRESS_HIGH]? =
      some (byte2 (p.val1 * 1000 + Int.tdiv p.val2 10000)) := by
  obtain ⟨e1, e2, e3⟩ := update_press_bytes p pb hpb
  obtain ⟨_, _, _, _, g5, g6, g7, _, _, _, _⟩ := update_combined_bytes s cb hcb
  obtain ⟨k1, k2, k3⟩ := update_press_simple_bytes p pg hpg
  rw [hsp] at g5 g6 g7
  simp only [pressure_scaled, pressure_scaled_simple, int32_t_loByte,
    int32_t_hiByte, int32_t_byte2] at e1 e2 e3 g5 g6 g7 k1 k2 k3
  exact ⟨e1, e2, e3, g5, g6, g7, k1, k2, k3⟩

/-- C3: claim and intent say a failed sample fetch skips validation,
encoding and publishing and leaves the payload buffers byte-for-byte
unchanged; the combined-payload handler does this with its goto, but the
three-payload handler has no early return after scheduling inside the
fetch-error branch, so it still encodes and publishes: with fetch failed
and the end-to-end sample it mutates the temperature payload (and the
two others) in place. -/
theorem c3_fetch_failure_still_encodes :
    (sensor_work_handler_v1 true false false false sample_iaq_50
        ⟨service_data_temp_hum, service_data_press, service_data_voc_co2⟩).state ≠
      ⟨service_data_temp_hum, service_data_press, service_data_voc_co2⟩ ∧
    (sensor_work_handler_v1 true false false false sample_iaq_50
        ⟨service_data_temp_hum, service_data_press, service_data_voc_co2⟩).state.temp_hum =
      [0xD2, 0xFC, 0x40, 0x02, 0xCA, 0x08, 0x03, 0x7C, 0x15] ∧
    (sensor_work_handler_v2 true false sample_iaq_50 service_data_combined).buf =
      service_data_combined := by
  refine ⟨?_, by decide, by decide⟩
  decide

/-- C4: for every CO2 reading (val1, val2) with 0 <= val2 < 1000000 the
fractional part is fully discarded: val2 / 1000000 truncates to 0, so
co2_scaled is exactly the uint16_t cast of val1, and equals val1 whenever
val1 lies in the 16-bit range. -/
theorem c4_co2_discards_fraction (i f : Int) (h1 : 0 ≤ f) (h2 : f < 1000000) :
    co2_scaled ⟨i, f⟩ = uint16_t i ∧
    Int.tdiv f 1000000 = 0 ∧
    (0 ≤ i → i < 65536 → co2_scaled ⟨i, f⟩ = i) := by
  have hz : Int.tdiv f 1000000 = 0 := by
    rw [Int.tdiv_eq_ediv h1 (by norm_num)]
    omega
  refine ⟨?_, hz, ?_⟩
  · simp [co2_scaled, hz]
  · intro hi1 hi2
    simp only [co2_scaled, uint16_t, hz, add_zero]
    omega

/-- C5: every run of either work handler, on every branch, preserves the
byte length of each payload buffer and leaves every index outside the
fixed value-byte offsets (the service-id bytes, the 0x40 format byte and
all tag bytes among them) unchanged; only value bytes are mutated and no
buffer is reallocated or resized. -/
theorem c5_fixed_layout (fetchErr updErr u1 u2 u3 : Bool) (s : Sample)
    (st : V1State) (buf : List Int) (j1 j2 j3 j4 : Nat)
    (hj1 : j1 ∉ v1_temp_hum_value_idx) (hj2 : j2 ∉ v1_press_value_idx)
    (hj3 : j3 ∉ v1_voc_co2_value_idx) (hj4 : j4 ∉ v2_value_idx) :
    (sensor_work_handler_v1 fetchErr u1 u2 u3 s st).state.temp_hum.length =
      st.temp_hum.length ∧
    (sensor_work_handler_v1 fetchErr u1 u2 u3 s st).state.press.length =
      st.press.length ∧
    (sensor_work_handler_v1 fetchErr u1 u2 u3 s st).state.voc_co2.length =
      st.voc_co2.length ∧
    (sensor_work_handler_v2 fetchErr updErr s buf).buf.length = buf.length ∧
    (sensor_work_handler_v1 fetchErr u1 u2 u3 s st).state.temp_hum[j1]? =
      st.temp_hum[j1]? ∧
    (sensor_work_handler_v1 fetchErr u1 u2 u3 s st).state.press[j2]? =
      st.press[j2]? ∧
    (sensor_work_handler_v1 fetchErr u1 u2 u3 s st).state.voc_co2[j3]? =
      st.voc_co2[j3]? ∧
    (sensor_work_handler_v2 fetchErr updErr s buf).buf[j4]? = buf[j4]? := by
  obtain ⟨a1, a2⟩ := update_temp_hum_frame s.temp s.humidity st.temp_hum j1 hj1
  obtain ⟨b1, b2⟩ := update_press_frame s.press st.press j2 hj2
  obtain ⟨d1, d2⟩ := update_voc_co2_frame s.voc s.co2 st.voc_co2 j3 hj3
  obtain ⟨e1, e2⟩ := update_combined_frame s buf j4 hj4
  have hv2 : (sensor_work_handler_v2 fetchErr updErr s buf).buf = buf ∨
      (sensor_work_handler_v2 fetchErr updErr s buf).buf = update_combined s buf := by
    unfold sensor_work_handler_v2
    split
    · exact Or.inl rfl
    · split
      · exact Or.inl rfl
      · exact Or.inr rfl
  rcases hv2 with hv | hv <;>
    exact ⟨a2, b2, d2, by rw [hv]; try rw [e2], a1, b1, d1, by rw [hv]; try rw [e1]⟩

/-- C6: whenever the plausibility check of the combined-payload handler
rejects the readings (IAQ equal to its not-yet-ready sentinel 0, or a
negative CO2 or VOC integer part), the run jumps straight to the
reschedule label: the payload buffer is returned unchanged, nothing is
published, and the next cycle is armed with the usual 3-second delay. -/
theorem c6_invalid_reading_skips (updErr : Bool) (s : Sample) (buf : List Int)
    (h : s.iaq.val1 = 0 ∨ s.co2.val1 < 0 ∨ s.voc.val1 < 0) :
    sensor_work_handler_v2 false updErr s buf = ⟨buf, false, 3⟩ := by
  unfold sensor_work_handler_v2
  rw [if_neg (by simp), if_pos h]

/-- C7 counterexample: the claim says each of the six fetched channel
values determines some value bytes of the published payload; IAQ does
not: two snapshots that differ only in the IAQ reading (50 versus 100,
both passing validation) produce byte-for-byte identical published
results from the combined-payload handler. -/
theorem c7_iaq_not_encoded_counterexample :
    sample_iaq_50.iaq ≠ sample_iaq_100.iaq ∧
    sample_iaq_50.temp = sample_iaq_100.temp ∧
    sample_iaq_50.press = sample_iaq_100.press ∧
    sample_iaq_50.humidity = sample_iaq_100.humidity ∧
    sample_iaq_50.co2 = sample_iaq_100.co2 ∧
    sample_iaq_50.voc = sample_iaq_100.voc ∧
    sensor_work_handler_v2 false false sample_iaq_50 service_data_combined =
      sensor_work_handler_v2 false false sample_iaq_100 service_data_combined ∧
    (sensor_work_handler_v2 false false sample_iaq_50 service_data_combined).published =
      true := by
  decide

/-- C7 amended: on every successfully validated cycle the encoding stage
writes five of the six fetched channels (temperature, humidity, pressure,
VOC, CO2) into the combined payload at their fixed offsets and the
updated payload is handed to the advertising update; the sixth channel,
IAQ, is used only by the validation check and never encoded, so the
published bytes do not depend on it. -/
theorem c7_amended_five_channels (s t : Sample) (updErr : Bool)
    (buf : List Int) (hbuf : buf.length = 19)
    (hvs : ¬(s.iaq.val1 = 0 ∨ s.co2.val1 < 0 ∨ s.voc.val1 < 0))
    (hvt : ¬(t.iaq.val1 = 0 ∨ t.co2.val1 < 0 ∨ t.voc.val1 < 0))
    (h1 : t.temp = s.temp) (h2 : t.press = s.press) (h3 : t.humidity = s.humidity)
    (h4 : t.co2 = s.co2) (h5 : t.voc = s.voc) :
    ((sensor_work_handler_v2 false updErr s buf).buf[IDX_TEMP_L]? =
        some (loByte (temp_scaled s.temp)) ∧
      (sensor_work_handler_v2 false updErr s buf).buf[IDX_TEMP_H]? =
        some (hiByte (temp_scaled s.temp)) ∧
      (sensor_work_handler_v2 false updErr s buf).buf[IDX_HUMID_L]? =
        some (loByte (humidity_scaled s.humidity)) ∧
      (sensor_work_handler_v2 false updErr s buf).buf[IDX_HUMID_H]? =
        some (hiByte (humidity_scaled s.humidity)) ∧
      (sensor_work_handler_v2 false updErr s buf).buf[IDX_PRESS_L]? =
        some (loByte (pressure_scaled s.press)) ∧
      (sensor_work_handler_v2 false updErr s buf).buf[IDX_PRESS_M]? =
        some (hiByte (pressure_scaled s.press)) ∧
      (sensor_work_handler_v2 false updErr s buf).buf[IDX_PRESS_H]? =
        some (byte2 (pressure_scaled s.press)) ∧
      (sensor_work_handler_v2 false updErr s buf).buf[IDX_VOC_L]? =
        some (loByte (voc_scaled s.voc)) ∧
      (sensor_work_handler_v2 false updErr s buf).buf[IDX_VOC_H]? =
        some (hiByte (voc_scaled s.voc)) ∧
      (sensor_work_handler_v2 false updErr s buf).buf[IDX_CO2_L]? =
        some (loByte (co2_scaled s.co2)) ∧
      (sensor_work_handler_v2 false updErr s buf).buf[IDX_CO2_H]? =
        some (hiByte (co2_scaled s.co2))) ∧
    (sensor_work_handler_v2 false updErr s buf).published = !updErr ∧
    sensor_work_handler_v2 false updErr t buf =
      sensor_work_handler_v2 false updErr s buf := by
  have hs : sensor_work_handler_v2 false updErr s buf =
      ⟨update_combined s buf, !updErr, 3⟩ := by
    unfold sensor_work_handler_v2
    rw [if_neg (by simp), if_neg hvs]
  have ht : sensor_work_handler_v2 false updErr t buf =
      ⟨update_combined t buf, !updErr, 3⟩ := by
    unfold sensor_work_handler_v2
    rw [if_neg (by simp), if_neg hvt]
  have hc : update_combined t buf = update_combined s buf := by
    simp only [update_combined, h1, h2, h3, h4, h5]
  rw [hs, ht, hc]
  exact ⟨update_combined_bytes s buf hbuf, rfl, rfl⟩

/-- C8: every run of either work handler ends by arming the next cycle
with the same fixed 3-second delay (SENSOR_WORK_DELAY), whatever the
fetch, validation and publish outcomes were, and every iteration of the
simple-loop design ends with the same fixed 5-minute (300-second) sleep;
no branch terminates the cycle. -/
theorem c8_always_rearms_fixed_delay (fetchErr updErr u1 u2 u3 : Bool)
    (s : Sample) (st : V1State) (buf : List Int) (fetchRet : Int)
    (s2 : SimpleSample) (th pg : List Int) :
    (sensor_work_handler_v1 fetchErr u1 u2 u3 s st).delaySeconds = 3 ∧
    (sensor_work_handler_v2 fetchErr updErr s buf).delaySeconds = 3 ∧
    (simple_loop_body fetchRet u1 u2 s2 th pg).delaySeconds = 300 := by
  refine ⟨rfl, ?_, rfl⟩
  unfold sensor_work_handler_v2
  split
  · rfl
  · split
    · rfl
    · rfl

/-- C9: the claim (and the comment in the source) say the day of week
returned by cts_time_read is in the range 1 to 7 with Monday mapped to 1
and Sunday to 7; the code computes (tm_wday + 7) % 7 + 1, which on the
hardware encoding (Sunday = 0, Monday = 1, ..., Saturday = 6) is just
tm_wday + 1: Monday maps to 2, Sunday to 1 and Saturday to 7, so the
implemented remap contradicts the documented one. -/
theorem c9_wday_remap_bug :
    (cts_time_read ⟨0, 0, 0, 1, 0, 100, 1⟩).wday = 2 ∧
    (cts_time_read ⟨0, 0, 0, 1, 0, 100, 0⟩).wday = 1 ∧
    (cts_time_read ⟨0, 0, 0, 1, 0, 100, 6⟩).wday = 7 := by
  decide

/-- C10: for every wire time value with in-range fields, writing it to
the clock with cts_time_write (which stores year - 1900 and mon - 1) and
reading the stored fields back with cts_time_read (which adds 1900 and 1
back) returns the original year, month, day of month, hours, minutes and
seconds: the offsets applied on write are exactly inverted on read. -/
theorem c10_time_roundtrip (t : bt_cts_time_format)
    (hy1 : 1582 ≤ t.year) (hy2 : t.year ≤ 9999)
    (hmo1 : 1 ≤ t.mon) (hmo2 : t.mon ≤ 12)
    (hd1 : 1 ≤ t.mday) (hd2 : t.mday ≤ 31)
    (hh1 : 0 ≤ t.hours) (hh2 : t.hours ≤ 23)
    (hmi1 : 0 ≤ t.min) (hmi2 : t.min ≤ 59)
    (hs1 : 0 ≤ t.sec) (hs2 : t.sec ≤ 59) :
    (cts_time_read (cts_time_write t)).year = t.year ∧
    (cts_time_read (cts_time_write t)).mon = t.mon ∧
    (cts_time_read (cts_time_write t)).mday = t.mday ∧
    (cts_time_read (cts_time_write t)).hours = t.hours ∧
    (cts_time_read (cts_time_write t)).min = t.min ∧
    (cts_time_read (cts_time_write t)).sec = t.sec := by
  simp only [cts_time_read, cts_time_write, uint16_t, uint8_t]
  refine ⟨?_, ?_, ?_, ?_, ?_, ?_⟩ <;> omega

/-- Sample with the IAQ sentinel value 0, rejected by validation. -/
def sample_invalid : Sample :=
  ⟨⟨22, 0⟩, ⟨1013, 0⟩, ⟨55, 0⟩, ⟨0, 0⟩, ⟨450, 0⟩, ⟨10, 0⟩⟩

/-- C1 witness at the end-to-end vector temperature (22, 500000). -/
theorem c1_witness :
    (0 : Int) ≤ 500000 ∧ (500000 : Int) < 1000000 ∧
    (update_temp_hum ⟨22, 500000⟩ ⟨55, 0⟩ service_data_temp_hum)[IDX_TEMPL]? =
      some (loByte (22 * 100 + Int.tdiv 500000 10000)) := by
  refine ⟨by decide, by decide, ?_⟩
  exact (c1_two_byte_encoders ⟨22, 500000⟩ ⟨55, 0⟩ ⟨10, 0⟩ ⟨450, 0⟩ sample_iaq_50
    (by decide) (by decide) (by decide) (by decide) (by decide) (by decide)
    rfl rfl rfl service_data_temp_hum service_data_voc_co2 service_data_combined
    (by decide) (by decide) (by decide)).1

/-- C2 witness at the end-to-end vector pressure (1013, 250000). -/
theorem c2_witness :
    service_data_press.length = 7 ∧
    (update_press ⟨1013, 250000⟩ service_data_press)[IDX_PRESS_LOW]? =
      some (loByte (Int.tdiv 1013 100 * 100 +
        Int.tdiv (Int.tmod 1013 100 + Int.tdiv 250000 1000000) 10)) := by
  refine ⟨by decide, ?_⟩
  exact (c2_pressure_encoding_amended ⟨1013, 250000⟩ sample_iaq_50 rfl
    service_data_press service_data_combined service_data_press_gas
    (by decide) (by decide) (by decide)).1

/-- C4 witness at the reading (450, 999999). -/
theorem c4_witness :
    (0 : Int) ≤ 999999 ∧ (999999 : Int) < 1000000 ∧
    co2_scaled ⟨450, 999999⟩ = uint16_t 450 := by
  refine ⟨by decide, by decide, ?_⟩
  exact (c4_co2_discards_fraction 450 999999 (by decide) (by decide)).1

/-- C5 witness at header index 3 (the format byte 0x40). -/
theorem c5_witness :
    (3 : Nat) ∉ v2_value_idx ∧
    (sensor_work_handler_v2 false false sample_iaq_50 service_data_combined).buf[3]? =
      service_data_combined[3]? := by
  refine ⟨by decide, ?_⟩
  exact (c5_fixed_layout false false false false false sample_iaq_50
    ⟨service_data_temp_hum, service_data_press, service_data_voc_co2⟩
    service_data_combined 3 3 3 3 (by decide) (by decide) (by decide)
    (by decide)).2.2.2.2.2.2.2

/-- C6 witness at the sentinel sample. -/
theorem c6_witness :
    (sample_invalid.iaq.val1 = 0 ∨ sample_invalid.co2.val1 < 0 ∨
      sample_invalid.voc.val1 < 0) ∧
    sensor_work_handler_v2 false false sample_invalid service_data_combined =
      ⟨service_data_combined, false, 3⟩ :=
  ⟨by decide,
    c6_invalid_reading_skips false sample_invalid service_data_combined (by decide)⟩

/-- C7 witness: the two samples with IAQ 50 and IAQ 100 publish the same
result. -/
theorem c7_witness :
    ¬(sample_iaq_50.iaq.val1 = 0 ∨ sample_iaq_50.co2.val1 < 0 ∨
      sample_iaq_50.voc.val1 < 0) ∧
    sensor_work_handler_v2 false false sample_iaq_100 service_data_combined =
      sensor_work_handler_v2 false false sample_iaq_50 service_data_combined := by
  refine ⟨by decide, ?_⟩
  exact (c7_amended_five_channels sample_iaq_50 sample_iaq_100 false
    service_data_combined (by decide) (by decide) (by decide) rfl rfl rfl rfl
    rfl).2.2

/-- C10 witness at the time value 2024-06-15 12:30:45. -/
theorem c10_witness :
    ((1582 : Int) ≤ 2024 ∧ (1 : Int) ≤ 6) ∧
    (cts_time_read (cts_time_write ⟨2024, 6, 15, 12, 30, 45, 0⟩)).year = 2024 := by
  refine ⟨⟨by decide, by decide⟩, ?_⟩
  exact (c10_time_roundtrip ⟨2024, 6, 15, 12, 30, 45, 0⟩ (by decide) (by decide)
    (by decide) (by decide) (by decide) (by decide) (by decide) (by decide)
    (by decide) (by decide) (by decide) (by decide)).1
